import Mathlib

/-!
Verification development for the Asus ROG Flow Z13 (2025) back-shell FreeCAD
macros (`3Dmodels/Asus_FreeCad_macro.py`, plain variant, and
`3Dmodels/atlog_macro.py`, text-engraved variant).

The macros drive an external boundary-representation geometry kernel.  The
embedding works at two levels:

* a record level: the primitive solids actually constructed by the macros
  (axis-aligned boxes and axis-aligned cylinders with exact rational
  millimetre parameters), on which bounding boxes and cutout lists are
  computable and claims are decidable;
* a point-set level: each primitive denotes a subset of real three-space,
  boolean `cut` / `common` / `fuse` operations denote set difference,
  intersection and union, and kernel operations whose geometric result the
  macros never inspect (edge fillets, font outline resolution, face
  construction, bounding-box queries on fillet results) are abstracted as
  function parameters.

Points of three-space are represented as iterated pairs `ℝ × ℝ × ℝ`:
`p.1` is the x coordinate, `p.2.1` the y coordinate, `p.2.2` the z
coordinate.
-/

/-- A point / vector with exact rational coordinates (`App.Vector` as the
macros use it: every vector literal in the two files is rational). -/
structure Pt where
  x : ℚ
  y : ℚ
  z : ℚ
deriving DecidableEq, Repr

/-- An axis-aligned box, the result of `Part.makeBox(dx, dy, dz, pos)`:
`pos` is the minimum corner, the box extends by `dx`, `dy`, `dz` along the
positive axes. -/
structure Box where
  dx : ℚ
  dy : ℚ
  dz : ℚ
  x : ℚ
  y : ℚ
  z : ℚ
deriving DecidableEq, Repr

/-- `Part.makeBox(length, width, height, pos)`. -/
def makeBox (l w h : ℚ) (p : Pt) : Box :=
  ⟨l, w, h, p.x, p.y, p.z⟩

/-- A right circular cylinder, the result of
`Part.makeCylinder(radius, height, pos, dir)`: base disc of radius `r`
centred at `pos`, extruded by `h` along direction `dir`.  The two macros
only ever construct cylinders with `dir = (0,0,1)` (webcam hole) or
`dir = (0,1,0)` (ventilation holes). -/
structure Cyl where
  r : ℚ
  h : ℚ
  px : ℚ
  py : ℚ
  pz : ℚ
  dir : Pt
deriving DecidableEq, Repr

/-- `Part.makeCylinder(radius, height, pos, dir)`. -/
def makeCylinder (r h : ℚ) (p : Pt) (d : Pt) : Cyl :=
  ⟨r, h, p.x, p.y, p.z, d⟩

/-- A cutout solid appended to one of the cutout lists: the macros build
boxes (port slots, kickstand notches) and cylinders (ventilation holes). -/
inductive Cutout where
  | box : Box → Cutout
  | cyl : Cyl → Cutout
deriving DecidableEq, Repr

/-- An axis-aligned bounding box with rational bounds. -/
structure BBox where
  xmin : ℚ
  xmax : ℚ
  ymin : ℚ
  ymax : ℚ
  zmin : ℚ
  zmax : ℚ
deriving DecidableEq, Repr

/-- Bounding box of a box primitive. -/
def Box.bbox (b : Box) : BBox :=
  ⟨b.x, b.x + b.dx, b.y, b.y + b.dy, b.z, b.z + b.dz⟩

/-- Bounding box of a cylinder primitive, for the two axis directions the
macros actually use (`+Z` for the webcam hole, `+Y` for the ventilation
holes); any other direction never occurs and falls back to the degenerate
box at the base point. -/
def Cyl.bbox (c : Cyl) : BBox :=
  if c.dir = ⟨0, 0, 1⟩ then
    ⟨c.px - c.r, c.px + c.r, c.py - c.r, c.py + c.r, c.pz, c.pz + c.h⟩
  else if c.dir = ⟨0, 1, 0⟩ then
    ⟨c.px - c.r, c.px + c.r, c.py, c.py + c.h, c.pz - c.r, c.pz + c.r⟩
  else
    ⟨c.px, c.px, c.py, c.py, c.pz, c.pz⟩

/-- Bounding box of a cutout. -/
def Cutout.bbox : Cutout → BBox
  | .box b => b.bbox
  | .cyl c => c.bbox

/-- The x position of a cutout primitive (minimum corner for a box, axis
base point for a cylinder); used to compare the ventilation hole layouts. -/
def Cutout.posX : Cutout → ℚ
  | .box b => b.x
  | .cyl c => c.px

/-- `inner` lies inside `outer` (containment of bounding boxes). -/
def BBox.insideOf (inner outer : BBox) : Prop :=
  outer.xmin ≤ inner.xmin ∧ inner.xmax ≤ outer.xmax ∧
  outer.ymin ≤ inner.ymin ∧ inner.ymax ≤ outer.ymax ∧
  outer.zmin ≤ inner.zmin ∧ inner.zmax ≤ outer.zmax

instance (inner outer : BBox) : Decidable (inner.insideOf outer) := by
  unfold BBox.insideOf; infer_instance

/-! ## Point-set semantics -/

/-- A point of real three-space: `(x, (y, z))`. -/
abbrev Pt3 := ℝ × ℝ × ℝ

/-- The set of points of a box: a product of closed intervals. -/
def Box.toSet (b : Box) : Set Pt3 :=
  Set.Icc (b.x : ℝ) ((b.x : ℝ) + (b.dx : ℝ)) ×ˢ
    (Set.Icc (b.y : ℝ) ((b.y : ℝ) + (b.dy : ℝ)) ×ˢ
      Set.Icc (b.z : ℝ) ((b.z : ℝ) + (b.dz : ℝ)))

/-- The set of points of a cylinder, for the two axis directions the macros
use; other directions never occur and denote the empty set. -/
def Cyl.toSet (c : Cyl) : Set Pt3 :=
  if c.dir = ⟨0, 0, 1⟩ then
    {p | (p.1 - (c.px : ℝ)) ^ 2 + (p.2.1 - (c.py : ℝ)) ^ 2 ≤ (c.r : ℝ) ^ 2 ∧
         (c.pz : ℝ) ≤ p.2.2 ∧ p.2.2 ≤ (c.pz : ℝ) + (c.h : ℝ)}
  else if c.dir = ⟨0, 1, 0⟩ then
    {p | (p.1 - (c.px : ℝ)) ^ 2 + (p.2.2 - (c.pz : ℝ)) ^ 2 ≤ (c.r : ℝ) ^ 2 ∧
         (c.py : ℝ) ≤ p.2.1 ∧ p.2.1 ≤ (c.py : ℝ) + (c.h : ℝ)}
  else ∅

/-- The set of points of a cutout. -/
def Cutout.toSet : Cutout → Set Pt3
  | .box b => b.toSet
  | .cyl c => c.toSet

/-! ## Kernel abstractions shared by both macro variants -/

/-- A kernel edge between its two endpoint vertices.  The macros read only
the two endpoint coordinates of each enumerated edge; edges with fewer than
two vertices (closed curves) are skipped by the source loops and are not
represented. -/
structure Edge where
  p1 : Pt
  p2 : Pt
deriving DecidableEq, Repr

/-- The kernel's `makeFillet` operation, abstracted: it receives the current
shape, a radius and the selected edges, and either returns the filleted
shape or fails (`none` models the kernel raising an exception for a
geometrically infeasible fillet). -/
abbrev FilletFn := Set Pt3 → ℚ → List Edge → Option (Set Pt3)

/-- One guarded fillet pass, as both macros write it:
`if edges and radius > 0: try: shape = shape.makeFillet(radius, edges)
except: pass` — the pass is attempted only for a nonempty selection and a
positive radius, and on kernel failure the shape reverts to its value
before the attempt. -/
def tryFilletPass (mk : FilletFn) (s : Set Pt3) (r : ℚ) (edges : List Edge) :
    Set Pt3 :=
  if ¬ edges.isEmpty ∧ 0 < r then
    match mk s r edges with
    | some s2 => s2
    | none => s
  else s

/-- The accumulation pattern `all = cuts[0]; for c in cuts[1:]: all =
all.fuse(c)` used by both macros to union a cutout list. -/
def fuseList (head : Set Pt3) (rest : List (Set Pt3)) : Set Pt3 :=
  rest.foldl (· ∪ ·) head

/-- Modelled from the spec: the external geometry kernel's box constructor
`Part.makeBox` (the kernel itself is not part of this repository).  Spec §7
records that degenerate cutout dimensions are not validated by the macros
and propagate to the kernel, where a non-positive dimension raises an
unhandled error instead of yielding a zero-extent solid. -/
def makeBoxKernel (l w h : ℚ) (p : Pt) : Except String Box :=
  if 0 < l ∧ 0 < w ∧ 0 < h then .ok (makeBox l w h p)
  else .error "makeBox: dimensions must be positive"

/-! ## The plain macro, `Asus_FreeCad_macro.py` -/

namespace AsusMacro

def TABLET_WIDTH : ℚ := 300.0
def TABLET_HEIGHT : ℚ := 204.0
def TABLET_THICKNESS : ℚ := 15.0
def SHELL_THICKNESS : ℚ := 3.0
def CLEARANCE : ℚ := 0.5
def LIP_HEIGHT : ℚ := 8.0
def INNER_CORNER_RADIUS : ℚ := 5.0

/-- `cavity_width` of `create_frame_shell`. -/
def cavity_width : ℚ := TABLET_WIDTH + 2 * CLEARANCE

/-- `cavity_height` of `create_frame_shell`. -/
def cavity_height : ℚ := TABLET_HEIGHT + 2 * CLEARANCE

/-- `outer_width` of `create_frame_shell`. -/
def outer_width : ℚ := cavity_width + 2 * SHELL_THICKNESS

/-- `outer_height` of `create_frame_shell`. -/
def outer_height : ℚ := cavity_height + 2 * SHELL_THICKNESS

def TABLET_SPACE : ℚ := 15.0
def LIP_OVERHANG : ℚ := 3.0
def LIP_OVERHANG_BOTTOM : ℚ := 9.0
def LIP_VERTICAL : ℚ := 3.0

/-- `total_height` of `create_frame_shell`. -/
def total_height : ℚ := SHELL_THICKNESS + TABLET_SPACE + LIP_VERTICAL

/-- The outer body box of `create_frame_shell`
(`Part.makeBox(outer_width, outer_height, total_height)`). -/
def outer_box : Box := makeBox outer_width outer_height total_height ⟨0, 0, 0⟩

/-- The wide lower cavity of `create_frame_shell`. -/
def lower_cavity : Box :=
  makeBox cavity_width cavity_height (TABLET_SPACE + 0.1)
    ⟨SHELL_THICKNESS, SHELL_THICKNESS, SHELL_THICKNESS⟩

def upper_cavity_width : ℚ := cavity_width - 2 * LIP_OVERHANG

def upper_cavity_height : ℚ :=
  cavity_height - LIP_OVERHANG - LIP_OVERHANG_BOTTOM

/-- The narrow upper (lip) cavity of `create_frame_shell`. -/
def upper_cavity : Box :=
  makeBox upper_cavity_width upper_cavity_height (LIP_VERTICAL + 0.1)
    ⟨SHELL_THICKNESS + LIP_OVERHANG, SHELL_THICKNESS + LIP_OVERHANG_BOTTOM,
      SHELL_THICKNESS + TABLET_SPACE⟩

def bottom_margin : ℚ := 10.0
def solid_top_area : ℚ := 40.0
def solid_bottom_area : ℚ := 40.0

/-- `bottom_hole_y_start`, generalized over the margin parameters (the
source fixes `margin = bottom_margin`, `solid_bottom = solid_bottom_area`). -/
def bottom_hole_y_start (margin solid_bottom : ℚ) : ℚ :=
  SHELL_THICKNESS + margin + solid_bottom

/-- `bottom_hole_y_size`, generalized over the margin parameters. -/
def bottom_hole_y_size (cavity_h margin solid_top solid_bottom : ℚ) : ℚ :=
  cavity_h - 2 * margin - solid_top - solid_bottom

/-- The central material-saving bottom cutout of `create_frame_shell`,
generalized over the cavity and margin parameters. -/
def bottom_hole_of (cavity_w cavity_h margin solid_top solid_bottom : ℚ) :
    Box :=
  makeBox (cavity_w - 2 * margin)
    (bottom_hole_y_size cavity_h margin solid_top solid_bottom)
    (SHELL_THICKNESS + 0.1)
    ⟨SHELL_THICKNESS + margin, bottom_hole_y_start margin solid_bottom, -0.05⟩

/-- The bottom cutout as the kernel receives it, via the spec-modelled
`makeBoxKernel`: the macro performs no validation of the computed
dimensions before the `Part.makeBox` call. -/
def bottom_hole_kernel (cavity_w cavity_h margin solid_top solid_bottom : ℚ) :
    Except String Box :=
  makeBoxKernel (cavity_w - 2 * margin)
    (bottom_hole_y_size cavity_h margin solid_top solid_bottom)
    (SHELL_THICKNESS + 0.1)
    ⟨SHELL_THICKNESS + margin, bottom_hole_y_start margin solid_bottom, -0.05⟩

/-- The bottom cutout with the source's fixed parameters. -/
def bottom_hole : Box :=
  bottom_hole_of cavity_width cavity_height bottom_margin solid_top_area
    solid_bottom_area

def WEBCAM_FROM_TOP : ℚ := 18.0
def WEBCAM_FROM_SIDE : ℚ := 18.0
def WEBCAM_RADIUS : ℚ := 6.0
def webcam_x : ℚ := SHELL_THICKNESS + WEBCAM_FROM_SIDE
def webcam_y : ℚ := outer_height - SHELL_THICKNESS - WEBCAM_FROM_TOP

/-- The webcam through-hole cylinder of `create_frame_shell`. -/
def webcam_hole : Cyl :=
  makeCylinder WEBCAM_RADIUS (SHELL_THICKNESS + 1) ⟨webcam_x, webcam_y, -0.5⟩
    ⟨0, 0, 1⟩

/-- `shell_shape` after all boolean subtractions of `create_frame_shell`,
before the three fillet passes:
`outer_box.cut(lower_cavity).cut(upper_cavity).cut(bottom_hole).cut(webcam_hole)`. -/
def shell_shape_pre : Set Pt3 :=
  (((outer_box.toSet \ lower_cavity.toSet) \ upper_cavity.toSet) \
      bottom_hole.toSet) \ webcam_hole.toSet

/-- The vertical-edge test of fillet passes 1 and 2:
`abs(p1.x - p2.x) < 0.001 and abs(p1.y - p2.y) < 0.001`. -/
def is_vertical_edge (e : Edge) : Prop :=
  |e.p1.x - e.p2.x| < 0.001 ∧ |e.p1.y - e.p2.y| < 0.001

instance (e : Edge) : Decidable (is_vertical_edge e) := by
  unfold is_vertical_edge; infer_instance

/-- `is_inner_corner` of fillet pass 1. -/
def is_inner_corner (x y : ℚ) : Prop :=
  (|x - SHELL_THICKNESS| < 0.1 ∧ |y - SHELL_THICKNESS| < 0.1) ∨
  (|x - SHELL_THICKNESS| < 0.1 ∧
    |y - (outer_height - SHELL_THICKNESS)| < 0.1) ∨
  (|x - (outer_width - SHELL_THICKNESS)| < 0.1 ∧
    |y - SHELL_THICKNESS| < 0.1) ∨
  (|x - (outer_width - SHELL_THICKNESS)| < 0.1 ∧
    |y - (outer_height - SHELL_THICKNESS)| < 0.1)

instance (x y : ℚ) : Decidable (is_inner_corner x y) := by
  unfold is_inner_corner; infer_instance

/-- Pass 1 keeps a vertical edge at an inner cavity corner whose endpoint
satisfies `z > SHELL_THICKNESS - 0.5 and z < SHELL_THICKNESS + TABLET_SPACE + 0.5`. -/
def inner_fillet_edge (e : Edge) : Prop :=
  is_vertical_edge e ∧ is_inner_corner e.p1.x e.p1.y ∧
  SHELL_THICKNESS - 0.5 < e.p1.z ∧
  e.p1.z < SHELL_THICKNESS + TABLET_SPACE + 0.5

instance (e : Edge) : Decidable (inner_fillet_edge e) := by
  unfold inner_fillet_edge; infer_instance

/-- `edges_to_fillet_inner` of fillet pass 1. -/
def select_inner_edges (edges : List Edge) : List Edge :=
  edges.filter (fun e => decide (inner_fillet_edge e))

/-- `is_outer_corner` of fillet pass 2. -/
def is_outer_corner (x y : ℚ) : Prop :=
  (|x| < 0.1 ∧ |y| < 0.1) ∨
  (|x| < 0.1 ∧ |y - outer_height| < 0.1) ∨
  (|x - outer_width| < 0.1 ∧ |y| < 0.1) ∨
  (|x - outer_width| < 0.1 ∧ |y - outer_height| < 0.1)

instance (x y : ℚ) : Decidable (is_outer_corner x y) := by
  unfold is_outer_corner; infer_instance

/-- Pass 2 keeps vertical edges at the outer box corners. -/
def outer_vertical_fillet_edge (e : Edge) : Prop :=
  is_vertical_edge e ∧ is_outer_corner e.p1.x e.p1.y

instance (e : Edge) : Decidable (outer_vertical_fillet_edge e) := by
  unfold outer_vertical_fillet_edge; infer_instance

/-- `edges_to_fillet_outer_vertical` of fillet pass 2. -/
def select_outer_vertical_edges (edges : List Edge) : List Edge :=
  edges.filter (fun e => decide (outer_vertical_fillet_edge e))

def OUTER_CORNER_RADIUS : ℚ := 5.0

/-- The horizontal-edge test of fillet pass 3: `abs(p1.z - p2.z) < 0.001`. -/
def is_horizontal_edge (e : Edge) : Prop := |e.p1.z - e.p2.z| < 0.001

instance (e : Edge) : Decidable (is_horizontal_edge e) := by
  unfold is_horizontal_edge; infer_instance

/-- Pass 3 keeps horizontal edges on the top or bottom plane that touch an
outer face of the box (`is_outer_edge`). -/
def outer_horizontal_fillet_edge (e : Edge) : Prop :=
  is_horizontal_edge e ∧
  ((|e.p1.z - total_height| < 0.1 ∨ |e.p1.z| < 0.1) ∧
   (|min e.p1.x e.p2.x| < 0.1 ∨ |max e.p1.x e.p2.x - outer_width| < 0.1 ∨
    |min e.p1.y e.p2.y| < 0.1 ∨ |max e.p1.y e.p2.y - outer_height| < 0.1))

instance (e : Edge) : Decidable (outer_horizontal_fillet_edge e) := by
  unfold outer_horizontal_fillet_edge; infer_instance

/-- `edges_to_fillet_outer_horizontal` of fillet pass 3. -/
def select_outer_horizontal_edges (edges : List Edge) : List Edge :=
  edges.filter (fun e => decide (outer_horizontal_fillet_edge e))

def OUTER_EDGE_RADIUS : ℚ := 1.5

/-- `shell_shape` after fillet pass 1 (inner cavity corners).
`kernelEdges` abstracts the kernel's edge enumeration `shape.Edges`. -/
def frame_after_pass1 (kernelEdges : Set Pt3 → List Edge)
    (mkFillet : FilletFn) : Set Pt3 :=
  tryFilletPass mkFillet shell_shape_pre INNER_CORNER_RADIUS
    (select_inner_edges (kernelEdges shell_shape_pre))

/-- `shell_shape` after fillet pass 2 (outer vertical corners). -/
def frame_after_pass2 (kernelEdges : Set Pt3 → List Edge)
    (mkFillet : FilletFn) : Set Pt3 :=
  tryFilletPass mkFillet (frame_after_pass1 kernelEdges mkFillet)
    OUTER_CORNER_RADIUS
    (select_outer_vertical_edges
      (kernelEdges (frame_after_pass1 kernelEdges mkFillet)))

/-- The shape returned by `create_frame_shell`: the boolean blank followed
by the three guarded fillet passes. -/
def create_frame_shell (kernelEdges : Set Pt3 → List Edge)
    (mkFillet : FilletFn) : Set Pt3 :=
  tryFilletPass mkFillet (frame_after_pass2 kernelEdges mkFillet)
    OUTER_EDGE_RADIUS
    (select_outer_horizontal_edges
      (kernelEdges (frame_after_pass2 kernelEdges mkFillet)))

/-! Local constants of `create_all_cutouts_left`. -/

namespace CutLeft

def PORT_START_FROM_TOP : ℚ := 23.0
def PORT_CUT_LENGTH : ℚ := 74.0

def port_y_start : ℚ :=
  cavity_height + SHELL_THICKNESS - PORT_START_FROM_TOP - PORT_CUT_LENGTH

def port_cut_height : ℚ := TABLET_SPACE + 1
def port_cut_width : ℚ := 8.0

/-- Main ports slot (USB, HDMI, power) on the left outer edge. -/
def ports_cutout : Box :=
  makeBox port_cut_width PORT_CUT_LENGTH port_cut_height
    ⟨-1, port_y_start, SHELL_THICKNESS⟩

def PORT2_START_FROM_TOP : ℚ := 145.0
def PORT2_CUT_LENGTH : ℚ := 20.0

def port2_y_start : ℚ :=
  cavity_height + SHELL_THICKNESS - PORT2_START_FROM_TOP - PORT2_CUT_LENGTH

/-- Second port slot on the left outer edge. -/
def ports_cutout2 : Box :=
  makeBox port_cut_width PORT2_CUT_LENGTH port_cut_height
    ⟨-1, port2_y_start, SHELL_THICKNESS⟩

def KICKSTAND_START : ℚ := 100.0
def KICKSTAND_END : ℚ := 155.0
def KICKSTAND_LENGTH : ℚ := KICKSTAND_END - KICKSTAND_START

def kickstand_y_start : ℚ :=
  cavity_height + SHELL_THICKNESS - KICKSTAND_END

def kickstand_width : ℚ := 10.0
def kickstand_x_start : ℚ := SHELL_THICKNESS

/-- Kickstand notch through the bottom wall, left half. -/
def kickstand_cutout : Box :=
  makeBox kickstand_width KICKSTAND_LENGTH (SHELL_THICKNESS + 1)
    ⟨kickstand_x_start, kickstand_y_start, -0.5⟩

end CutLeft

/-- `create_all_cutouts_left`: the three box cutouts for the left half. -/
def create_all_cutouts_left : List Cutout :=
  [.box CutLeft.ports_cutout, .box CutLeft.ports_cutout2,
   .box CutLeft.kickstand_cutout]

/-! Local constants of `create_all_cutouts_right`. -/

namespace CutRight

def PORT_START_FROM_TOP : ℚ := 20.0
def PORT_CUT_LENGTH : ℚ := 72.0

def port_y_start : ℚ :=
  cavity_height + SHELL_THICKNESS - PORT_START_FROM_TOP - PORT_CUT_LENGTH

def port_cut_height : ℚ := TABLET_SPACE + 1
def port_cut_width : ℚ := 8.0

/-- Main ports slot on the right outer edge. -/
def ports_cutout : Box :=
  makeBox port_cut_width PORT_CUT_LENGTH port_cut_height
    ⟨outer_width - port_cut_width + 1, port_y_start, SHELL_THICKNESS⟩

def PORT2_START_FROM_TOP : ℚ := 138.0
def PORT2_CUT_LENGTH : ℚ := 37.0

def port2_y_start : ℚ :=
  cavity_height + SHELL_THICKNESS - PORT2_START_FROM_TOP - PORT2_CUT_LENGTH

/-- Audio connector and USB slot on the right outer edge. -/
def ports_cutout2 : Box :=
  makeBox port_cut_width PORT2_CUT_LENGTH port_cut_height
    ⟨outer_width - port_cut_width + 1, port2_y_start, SHELL_THICKNESS⟩

def KICKSTAND_START : ℚ := 100.0
def KICKSTAND_END : ℚ := 155.0
def KICKSTAND_LENGTH : ℚ := KICKSTAND_END - KICKSTAND_START

def kickstand_y_start : ℚ :=
  cavity_height + SHELL_THICKNESS - KICKSTAND_END

def kickstand_width : ℚ := 10.0

/-- Kickstand notch through the bottom wall, right half. -/
def kickstand_cutout : Box :=
  makeBox kickstand_width KICKSTAND_LENGTH (SHELL_THICKNESS + 1)
    ⟨outer_width - SHELL_THICKNESS - kickstand_width, kickstand_y_start, -0.5⟩

end CutRight

/-- `create_all_cutouts_right`: the three box cutouts for the right half. -/
def create_all_cutouts_right : List Cutout :=
  [.box CutRight.ports_cutout, .box CutRight.ports_cutout2,
   .box CutRight.kickstand_cutout]

/-! Local constants of `create_ventilation_cutouts_top`. -/

namespace Vent

def VENT_START_FROM_EDGE : ℚ := 15.0
def VENT_END_FROM_EDGE : ℚ := 80.0
def HOLE_RADIUS : ℚ := 3.0
def HOLE_SPACING : ℚ := 8.0

/-- The function's local `wall_thickness = 8.0` (upper wall), distinct from
the module-level `SHELL_THICKNESS`. -/
def wall_thickness : ℚ := 8.0

def hole_z : ℚ := SHELL_THICKNESS + TABLET_SPACE / 2

/-- One ventilation hole: a cylinder oriented along `+Y` through the upper
wall at axis x-position `x`. -/
def hole_at (x : ℚ) : Cutout :=
  .cyl (makeCylinder HOLE_RADIUS (wall_thickness + 1)
    ⟨x, outer_height - wall_thickness - 0.5, hole_z⟩ ⟨0, 1, 0⟩)

/-- The `while x_position + HOLE_RADIUS < bound` loop of
`create_ventilation_cutouts_top`: appends a hole and advances by
`HOLE_SPACING` while the guard holds. -/
def loop (bound : ℚ) (x : ℚ) : List Cutout :=
  if h : x + HOLE_RADIUS < bound then hole_at x :: loop bound (x + HOLE_SPACING)
  else []
termination_by (⌈bound - x⌉).toNat
decreasing_by
  have h3 : (3 : ℚ) < bound - x := by
    unfold HOLE_RADIUS at h; linarith
  have h5 : (3 : ℤ) < ⌈bound - x⌉ := by
    rw [Int.lt_ceil]; exact_mod_cast h3
  have h6 : bound - (x + HOLE_SPACING) = bound - x - ((8 : ℤ) : ℚ) := by
    unfold HOLE_SPACING; push_cast; ring
  have h7 : ⌈bound - (x + HOLE_SPACING)⌉ = ⌈bound - x⌉ - 8 := by
    rw [h6, Int.ceil_sub_int]
  simp only [h7]
  omega

/-- The left-region while loop: from `x = VENT_START_FROM_EDGE +
SHELL_THICKNESS + HOLE_RADIUS` while `x + HOLE_RADIUS < VENT_END_FROM_EDGE
+ SHELL_THICKNESS`. -/
def vent_left : List Cutout :=
  loop (VENT_END_FROM_EDGE + SHELL_THICKNESS)
    (VENT_START_FROM_EDGE + SHELL_THICKNESS + HOLE_RADIUS)

/-- The right-region while loop: from `x = outer_width - VENT_END_FROM_EDGE
- SHELL_THICKNESS - HOLE_RADIUS` while `x + HOLE_RADIUS < outer_width -
VENT_START_FROM_EDGE - SHELL_THICKNESS`. -/
def vent_right : List Cutout :=
  loop (outer_width - VENT_START_FROM_EDGE - SHELL_THICKNESS)
    (outer_width - VENT_END_FROM_EDGE - SHELL_THICKNESS - HOLE_RADIUS)

end Vent

/-- `create_ventilation_cutouts_top`: the left-region holes followed by the
right-region holes, in one list. -/
def create_ventilation_cutouts_top : List Cutout :=
  Vent.vent_left ++ Vent.vent_right

/-- `left_cutter` of `cut_frame_in_half`. -/
def left_cutter : Box :=
  makeBox (outer_width / 2) outer_height total_height ⟨0, 0, 0⟩

/-- `right_cutter` of `cut_frame_in_half`. -/
def right_cutter : Box :=
  makeBox (outer_width / 2) outer_height total_height ⟨outer_width / 2, 0, 0⟩

/-- `cut_frame_in_half`: both halves are intersections (`common`) of the
frame with the two cutter boxes; the welding-groove subtraction is disabled
in the source. -/
def cut_frame_in_half (frame : Set Pt3) : Set Pt3 × Set Pt3 :=
  (frame ∩ left_cutter.toSet, frame ∩ right_cutter.toSet)

/-- `main`: the final left-half shape.  The left cutouts are extended with
the shared ventilation cutouts, fused left-to-right, and subtracted from
the bisected left half in a single cut. -/
def main_left_final (kernelEdges : Set Pt3 → List Edge)
    (mkFillet : FilletFn) : Set Pt3 :=
  let complete_frame := create_frame_shell kernelEdges mkFillet
  let left_half := (cut_frame_in_half complete_frame).1
  let left_cutouts := create_all_cutouts_left ++ create_ventilation_cutouts_top
  match left_cutouts with
  | [] => left_half
  | c :: rest => left_half \ fuseList c.toSet (rest.map Cutout.toSet)

/-- `main`: the final right-half shape, analogous to the left. -/
def main_right_final (kernelEdges : Set Pt3 → List Edge)
    (mkFillet : FilletFn) : Set Pt3 :=
  let complete_frame := create_frame_shell kernelEdges mkFillet
  let right_half := (cut_frame_in_half complete_frame).2
  let right_cutouts :=
    create_all_cutouts_right ++ create_ventilation_cutouts_top
  match right_cutouts with
  | [] => right_half
  | c :: rest => right_half \ fuseList c.toSet (rest.map Cutout.toSet)

end AsusMacro

/-! ## The text-engraved macro, `atlog_macro.py`

The file duplicates the whole pipeline of `Asus_FreeCad_macro.py` verbatim
(same constants, same function bodies) and adds the text-engraving stage;
the definitions below repeat the embedding accordingly. -/

namespace AtlogMacro

def TABLET_WIDTH : ℚ := 300.0
def TABLET_HEIGHT : ℚ := 204.0
def TABLET_THICKNESS : ℚ := 15.0
def SHELL_THICKNESS : ℚ := 3.0
def CLEARANCE : ℚ := 0.5
def LIP_HEIGHT : ℚ := 8.0
def INNER_CORNER_RADIUS : ℚ := 5.0

def TEXT_SIZE : ℚ := 15.0
def TEXT_DEPTH : ℚ := 1.0
def TEXT_X_OFFSET : ℚ := 15.0
def TEXT_Y_OFFSET : ℚ := 15.0

def cavity_width : ℚ := TABLET_WIDTH + 2 * CLEARANCE
def cavity_height : ℚ := TABLET_HEIGHT + 2 * CLEARANCE
def outer_width : ℚ := cavity_width + 2 * SHELL_THICKNESS
def outer_height : ℚ := cavity_height + 2 * SHELL_THICKNESS

def TABLET_SPACE : ℚ := 15.0
def LIP_OVERHANG : ℚ := 3.0
def LIP_OVERHANG_BOTTOM : ℚ := 9.0
def LIP_VERTICAL : ℚ := 3.0

def total_height : ℚ := SHELL_THICKNESS + TABLET_SPACE + LIP_VERTICAL

def outer_box : Box := makeBox outer_width outer_height total_height ⟨0, 0, 0⟩

def lower_cavity : Box :=
  makeBox cavity_width cavity_height (TABLET_SPACE + 0.1)
    ⟨SHELL_THICKNESS, SHELL_THICKNESS, SHELL_THICKNESS⟩

def upper_cavity_width : ℚ := cavity_width - 2 * LIP_OVERHANG

def upper_cavity_height : ℚ :=
  cavity_height - LIP_OVERHANG - LIP_OVERHANG_BOTTOM

def upper_cavity : Box :=
  makeBox upper_cavity_width upper_cavity_height (LIP_VERTICAL + 0.1)
    ⟨SHELL_THICKNESS + LIP_OVERHANG, SHELL_THICKNESS + LIP_OVERHANG_BOTTOM,
      SHELL_THICKNESS + TABLET_SPACE⟩

def bottom_margin : ℚ := 10.0
def solid_top_area : ℚ := 40.0
def solid_bottom_area : ℚ := 40.0

def bottom_hole_y_start : ℚ :=
  SHELL_THICKNESS + bottom_margin + solid_bottom_area

def bottom_hole_y_size : ℚ :=
  cavity_height - 2 * bottom_margin - solid_top_area - solid_bottom_area

def bottom_hole : Box :=
  makeBox (cavity_width - 2 * bottom_margin) bottom_hole_y_size
    (SHELL_THICKNESS + 0.1)
    ⟨SHELL_THICKNESS + bottom_margin, bottom_hole_y_start, -0.05⟩

def WEBCAM_FROM_TOP : ℚ := 18.0
def WEBCAM_FROM_SIDE : ℚ := 18.0
def WEBCAM_RADIUS : ℚ := 6.0
def webcam_x : ℚ := SHELL_THICKNESS + WEBCAM_FROM_SIDE
def webcam_y : ℚ := outer_height - SHELL_THICKNESS - WEBCAM_FROM_TOP

def webcam_hole : Cyl :=
  makeCylinder WEBCAM_RADIUS (SHELL_THICKNESS + 1) ⟨webcam_x, webcam_y, -0.5⟩
    ⟨0, 0, 1⟩

def shell_shape_pre : Set Pt3 :=
  (((outer_box.toSet \ lower_cavity.toSet) \ upper_cavity.toSet) \
      bottom_hole.toSet) \ webcam_hole.toSet

def is_vertical_edge (e : Edge) : Prop :=
  |e.p1.x - e.p2.x| < 0.001 ∧ |e.p1.y - e.p2.y| < 0.001

instance (e : Edge) : Decidable (is_vertical_edge e) := by
  unfold is_vertical_edge; infer_instance

def is_inner_corner (x y : ℚ) : Prop :=
  (|x - SHELL_THICKNESS| < 0.1 ∧ |y - SHELL_THICKNESS| < 0.1) ∨
  (|x - SHELL_THICKNESS| < 0.1 ∧
    |y - (outer_height - SHELL_THICKNESS)| < 0.1) ∨
  (|x - (outer_width - SHELL_THICKNESS)| < 0.1 ∧
    |y - SHELL_THICKNESS| < 0.1) ∨
  (|x - (outer_width - SHELL_THICKNESS)| < 0.1 ∧
    |y - (outer_height - SHELL_THICKNESS)| < 0.1)

instance (x y : ℚ) : Decidable (is_inner_corner x y) := by
  unfold is_inner_corner; infer_instance

def inner_fillet_edge (e : Edge) : Prop :=
  is_vertical_edge e ∧ is_inner_corner e.p1.x e.p1.y ∧
  SHELL_THICKNESS - 0.5 < e.p1.z ∧
  e.p1.z < SHELL_THICKNESS + TABLET_SPACE + 0.5

instance (e : Edge) : Decidable (inner_fillet_edge e) := by
  unfold inner_fillet_edge; infer_instance

def select_inner_edges (edges : List Edge) : List Edge :=
  edges.filter (fun e => decide (inner_fillet_edge e))

def is_outer_corner (x y : ℚ) : Prop :=
  (|x| < 0.1 ∧ |y| < 0.1) ∨
  (|x| < 0.1 ∧ |y - outer_height| < 0.1) ∨
  (|x - outer_width| < 0.1 ∧ |y| < 0.1) ∨
  (|x - outer_width| < 0.1 ∧ |y - outer_height| < 0.1)

instance (x y : ℚ) : Decidable (is_outer_corner x y) := by
  unfold is_outer_corner; infer_instance

def outer_vertical_fillet_edge (e : Edge) : Prop :=
  is_vertical_edge e ∧ is_outer_corner e.p1.x e.p1.y

instance (e : Edge) : Decidable (outer_vertical_fillet_edge e) := by
  unfold outer_vertical_fillet_edge; infer_instance

def select_outer_vertical_edges (edges : List Edge) : List Edge :=
  edges.filter (fun e => decide (outer_vertical_fillet_edge e))

def OUTER_CORNER_RADIUS : ℚ := 5.0

def is_horizontal_edge (e : Edge) : Prop := |e.p1.z - e.p2.z| < 0.001

instance (e : Edge) : Decidable (is_horizontal_edge e) := by
  unfold is_horizontal_edge; infer_instance

def outer_horizontal_fillet_edge (e : Edge) : Prop :=
  is_horizontal_edge e ∧
  ((|e.p1.z - total_height| < 0.1 ∨ |e.p1.z| < 0.1) ∧
   (|min e.p1.x e.p2.x| < 0.1 ∨ |max e.p1.x e.p2.x - outer_width| < 0.1 ∨
    |min e.p1.y e.p2.y| < 0.1 ∨ |max e.p1.y e.p2.y - outer_height| < 0.1))

instance (e : Edge) : Decidable (outer_horizontal_fillet_edge e) := by
  unfold outer_horizontal_fillet_edge; infer_instance

def select_outer_horizontal_edges (edges : List Edge) : List Edge :=
  edges.filter (fun e => decide (outer_horizontal_fillet_edge e))

def OUTER_EDGE_RADIUS : ℚ := 1.5

def frame_after_pass1 (kernelEdges : Set Pt3 → List Edge)
    (mkFillet : FilletFn) : Set Pt3 :=
  tryFilletPass mkFillet shell_shape_pre INNER_CORNER_RADIUS
    (select_inner_edges (kernelEdges shell_shape_pre))

def frame_after_pass2 (kernelEdges : Set Pt3 → List Edge)
    (mkFillet : FilletFn) : Set Pt3 :=
  tryFilletPass mkFillet (frame_after_pass1 kernelEdges mkFillet)
    OUTER_CORNER_RADIUS
    (select_outer_vertical_edges
      (kernelEdges (frame_after_pass1 kernelEdges mkFillet)))

def create_frame_shell (kernelEdges : Set Pt3 → List Edge)
    (mkFillet : FilletFn) : Set Pt3 :=
  tryFilletPass mkFillet (frame_after_pass2 kernelEdges mkFillet)
    OUTER_EDGE_RADIUS
    (select_outer_horizontal_edges
      (kernelEdges (frame_after_pass2 kernelEdges mkFillet)))

/-! Local constants of `create_all_cutouts_left` (atlog variant). -/

namespace CutLeft

def PORT_START_FROM_TOP : ℚ := 23.0
def PORT_CUT_LENGTH : ℚ := 74.0

def port_y_start : ℚ :=
  cavity_height + SHELL_THICKNESS - PORT_START_FROM_TOP - PORT_CUT_LENGTH

def port_cut_height : ℚ := TABLET_SPACE + 1
def port_cut_width : ℚ := 8.0

def ports_cutout : Box :=
  makeBox port_cut_width PORT_CUT_LENGTH port_cut_height
    ⟨-1, port_y_start, SHELL_THICKNESS⟩

def PORT2_START_FROM_TOP : ℚ := 145.0
def PORT2_CUT_LENGTH : ℚ := 20.0

def port2_y_start : ℚ :=
  cavity_height + SHELL_THICKNESS - PORT2_START_FROM_TOP - PORT2_CUT_LENGTH

def ports_cutout2 : Box :=
  makeBox port_cut_width PORT2_CUT_LENGTH port_cut_height
    ⟨-1, port2_y_start, SHELL_THICKNESS⟩

def KICKSTAND_START : ℚ := 100.0
def KICKSTAND_END : ℚ := 155.0
def KICKSTAND_LENGTH : ℚ := KICKSTAND_END - KICKSTAND_START

def kickstand_y_start : ℚ :=
  cavity_height + SHELL_THICKNESS - KICKSTAND_END

def kickstand_width : ℚ := 10.0
def kickstand_x_start : ℚ := SHELL_THICKNESS

def kickstand_cutout : Box :=
  makeBox kickstand_width KICKSTAND_LENGTH (SHELL_THICKNESS + 1)
    ⟨kickstand_x_start, kickstand_y_start, -0.5⟩

end CutLeft

def create_all_cutouts_left : List Cutout :=
  [.box CutLeft.ports_cutout, .box CutLeft.ports_cutout2,
   .box CutLeft.kickstand_cutout]

/-! Local constants of `create_all_cutouts_right` (atlog variant). -/

namespace CutRight

def PORT_START_FROM_TOP : ℚ := 20.0
def PORT_CUT_LENGTH : ℚ := 72.0

def port_y_start : ℚ :=
  cavity_height + SHELL_THICKNESS - PORT_START_FROM_TOP - PORT_CUT_LENGTH

def port_cut_height : ℚ := TABLET_SPACE + 1
def port_cut_width : ℚ := 8.0

def ports_cutout : Box :=
  makeBox port_cut_width PORT_CUT_LENGTH port_cut_height
    ⟨outer_width - port_cut_width + 1, port_y_start, SHELL_THICKNESS⟩

def PORT2_START_FROM_TOP : ℚ := 138.0
def PORT2_CUT_LENGTH : ℚ := 37.0

def port2_y_start : ℚ :=
  cavity_height + SHELL_THICKNESS - PORT2_START_FROM_TOP - PORT2_CUT_LENGTH

def ports_cutout2 : Box :=
  makeBox port_cut_width PORT2_CUT_LENGTH port_cut_height
    ⟨outer_width - port_cut_width + 1, port2_y_start, SHELL_THICKNESS⟩

def KICKSTAND_START : ℚ := 100.0
def KICKSTAND_END : ℚ := 155.0
def KICKSTAND_LENGTH : ℚ := KICKSTAND_END - KICKSTAND_START

def kickstand_y_start : ℚ :=
  cavity_height + SHELL_THICKNESS - KICKSTAND_END

def kickstand_width : ℚ := 10.0

def kickstand_cutout : Box :=
  makeBox kickstand_width KICKSTAND_LENGTH (SHELL_THICKNESS + 1)
    ⟨outer_width - SHELL_THICKNESS - kickstand_width, kickstand_y_start, -0.5⟩

end CutRight

def create_all_cutouts_right : List Cutout :=
  [.box CutRight.ports_cutout, .box CutRight.ports_cutout2,
   .box CutRight.kickstand_cutout]

/-! Local constants of `create_ventilation_cutouts_top` (atlog variant). -/

namespace Vent

def VENT_START_FROM_EDGE : ℚ := 15.0
def VENT_END_FROM_EDGE : ℚ := 80.0
def HOLE_RADIUS : ℚ := 3.0
def HOLE_SPACING : ℚ := 8.0

def wall_thickness : ℚ := 8.0

def hole_z : ℚ := SHELL_THICKNESS + TABLET_SPACE / 2

def hole_at (x : ℚ) : Cutout :=
  .cyl (makeCylinder HOLE_RADIUS (wall_thickness + 1)
    ⟨x, outer_height - wall_thickness - 0.5, hole_z⟩ ⟨0, 1, 0⟩)

def loop (bound : ℚ) (x : ℚ) : List Cutout :=
  if h : x + HOLE_RADIUS < bound then hole_at x :: loop bound (x + HOLE_SPACING)
  else []
termination_by (⌈bound - x⌉).toNat
decreasing_by
  have h3 : (3 : ℚ) < bound - x := by
    unfold HOLE_RADIUS at h; linarith
  have h5 : (3 : ℤ) < ⌈bound - x⌉ := by
    rw [Int.lt_ceil]; exact_mod_cast h3
  have h6 : bound - (x + HOLE_SPACING) = bound - x - ((8 : ℤ) : ℚ) := by
    unfold HOLE_SPACING; push_cast; ring
  have h7 : ⌈bound - (x + HOLE_SPACING)⌉ = ⌈bound - x⌉ - 8 := by
    rw [h6, Int.ceil_sub_int]
  simp only [h7]
  omega

def vent_left : List Cutout :=
  loop (VENT_END_FROM_EDGE + SHELL_THICKNESS)
    (VENT_START_FROM_EDGE + SHELL_THICKNESS + HOLE_RADIUS)

def vent_right : List Cutout :=
  loop (outer_width - VENT_START_FROM_EDGE - SHELL_THICKNESS)
    (outer_width - VENT_END_FROM_EDGE - SHELL_THICKNESS - HOLE_RADIUS)

end Vent

def create_ventilation_cutouts_top : List Cutout :=
  Vent.vent_left ++ Vent.vent_right

def left_cutter : Box :=
  makeBox (outer_width / 2) outer_height total_height ⟨0, 0, 0⟩

def right_cutter : Box :=
  makeBox (outer_width / 2) outer_height total_height ⟨outer_width / 2, 0, 0⟩

def cut_frame_in_half (frame : Set Pt3) : Set Pt3 × Set Pt3 :=
  (frame ∩ left_cutter.toSet, frame ∩ right_cutter.toSet)

/-! Text engraving (`create_text_engraving`).  The font outline resolution
(`Part.makeWireString`), the per-character face construction
(`Part.makeFace` with `FaceMakerBullseye`, and the outer-contour fallback
`Part.Face`), and the kernel's bounding-box queries are external kernel
operations, abstracted as parameters: `wires` is the outline wire group
list returned for the string, `mkFaceBullseye` and `fallbackFace` return
the planar region of a character face or `none` on failure, and `cx`,
`xmin`, `ymin`, `zmin` are the bounding-box values the kernel reports
(`cx` the pre-mirror x centre, the rest the post-mirror minima). -/

/-- A planar region in the z = 0 sketch plane of the font outlines. -/
abbrev Region2 := Set (ℝ × ℝ)

/-- Extrusion of a character face by `App.Vector(0, 0, TEXT_DEPTH + 0.2)`:
the face lies in the z = 0 plane, so the solid spans z from `0` to
`TEXT_DEPTH + 0.2`. -/
def charSolid (A : Region2) : Set Pt3 :=
  {p | (p.1, p.2.1) ∈ A ∧ 0 ≤ p.2.2 ∧ p.2.2 ≤ (TEXT_DEPTH : ℝ) + 0.2}

/-- The fuse chain `text_shape = char_solids[0]; for s in char_solids[1:]:
text_shape = text_shape.fuse(s)`. -/
def fuseAll : List (Set Pt3) → Set Pt3
  | [] => ∅
  | s :: rest => fuseList s rest

/-- `shape.mirror(App.Vector(cx, 0, 0), App.Vector(1, 0, 0))`: reflection
across the plane x = cx. -/
def mirrorX (cx : ℝ) (S : Set Pt3) : Set Pt3 :=
  (fun p : Pt3 => (2 * cx - p.1, p.2)) '' S

/-- `shape.translate(v)`. -/
def translateBy (v : Pt3) (S : Set Pt3) : Set Pt3 :=
  (fun p : Pt3 => (p.1 + v.1, p.2.1 + v.2.1, p.2.2 + v.2.2)) '' S

/-- `target_x` of `create_text_engraving`. -/
def target_x : ℝ := (TEXT_X_OFFSET : ℝ)

/-- `target_y` of `create_text_engraving`. -/
def target_y : ℝ := (outer_height : ℝ) - (TEXT_Y_OFFSET : ℝ) - (TEXT_SIZE : ℝ)

/-- The fused, mirrored and positioned text solid built from the character
face regions: extrude each face, fuse, mirror about the x centre `cx`, and
translate by `(target_x - xmin, target_y - ymin, -0.1 - zmin)` (nudged
slightly below z = 0 for a clean boolean cut). -/
def text_solid (faces : List Region2) (cx xmin ymin zmin : ℝ) : Set Pt3 :=
  translateBy (target_x - xmin, target_y - ymin, -0.1 - zmin)
    (mirrorX cx (fuseAll (faces.map charSolid)))

/-- `create_text_engraving`: `None` when the font yields no wires, empty
character wire groups are skipped, each character tries the Bullseye face
maker and falls back to the outer contour, `None` when no character solid
could be built, otherwise the fused/mirrored/translated text solid. -/
def create_text_engraving {W : Type} (wires : List (List W))
    (mkFaceBullseye fallbackFace : List W → Option Region2)
    (cx xmin ymin zmin : ℝ) : Option (Set Pt3) :=
  if wires.isEmpty then none
  else
    let char_faces := (wires.filter (fun cw => ¬ cw.isEmpty)).filterMap
      (fun cw =>
        match mkFaceBullseye cw with
        | some f => some f
        | none => fallbackFace cw)
    if char_faces.isEmpty then none
    else some (text_solid char_faces cx xmin ymin zmin)

/-- The engraving step of `main`: `if text_engrave: left_final_shape =
left_final_shape.cut(text_engrave)` — a failed engraving is skipped. -/
def engrave_step (t : Option (Set Pt3)) (base : Set Pt3) : Set Pt3 :=
  match t with
  | none => base
  | some ts => base \ ts

/-- `main` (atlog variant): the left-half shape after port and ventilation
cutouts, before the text-engraving cut. -/
def left_final_before_engraving (kernelEdges : Set Pt3 → List Edge)
    (mkFillet : FilletFn) : Set Pt3 :=
  let complete_frame := create_frame_shell kernelEdges mkFillet
  let left_half := (cut_frame_in_half complete_frame).1
  let left_cutouts := create_all_cutouts_left ++ create_ventilation_cutouts_top
  match left_cutouts with
  | [] => left_half
  | c :: rest => left_half \ fuseList c.toSet (rest.map Cutout.toSet)

/-- `main` (atlog variant): the final left-half shape, with the text solid
subtracted when `create_text_engraving` produced one. -/
def main_left_final (kernelEdges : Set Pt3 → List Edge) (mkFillet : FilletFn)
    {W : Type} (wires : List (List W))
    (mkFaceBullseye fallbackFace : List W → Option Region2)
    (cx xmin ymin zmin : ℝ) : Set Pt3 :=
  engrave_step
    (create_text_engraving wires mkFaceBullseye fallbackFace cx xmin ymin zmin)
    (left_final_before_engraving kernelEdges mkFillet)

/-- `main` (atlog variant): the final right-half shape (no engraving). -/
def main_right_final (kernelEdges : Set Pt3 → List Edge)
    (mkFillet : FilletFn) : Set Pt3 :=
  let complete_frame := create_frame_shell kernelEdges mkFillet
  let right_half := (cut_frame_in_half complete_frame).2
  let right_cutouts :=
    create_all_cutouts_right ++ create_ventilation_cutouts_top
  match right_cutouts with
  | [] => right_half
  | c :: rest => right_half \ fuseList c.toSet (rest.map Cutout.toSet)

end AtlogMacro

/-! ## Concrete kernel instantiations used by witnesses -/

/-- A fillet kernel that always fails (raises) — the worst case the guarded
passes must absorb. -/
def noFillet : FilletFn := fun _ _ _ => none

/-- A vertical probe edge on the inner cavity corner x = y =
`SHELL_THICKNESS`, spanning the tablet bay in z: pass 1 selects it. -/
def innerEdgeProbe : Edge := ⟨⟨3, 3, 3⟩, ⟨3, 3, 18⟩⟩

/-- An edge enumeration returning just the probe edge. -/
def probeEdges : Set Pt3 → List Edge := fun _ => [innerEdgeProbe]

/-- A face maker that always fails. -/
def noFace : List Unit → Option AtlogMacro.Region2 := fun _ => none

/-- A one-character wire group list. -/
def sampleWires : List (List Unit) := [[()]]

/-- A single full-plane character face region. -/
def sampleFaces : List AtlogMacro.Region2 := [Set.univ]

/-- The closed upper half-space z ≥ 0, containing every shell shape. -/
def upperHalfSpace : Set Pt3 := {p : Pt3 | 0 ≤ p.2.2}

/-- The reflection across the bisection plane x = `outer_width / 2`. -/
def reflectSplit : Pt3 → Pt3 :=
  fun p => ((AsusMacro.outer_width : ℝ) - p.1, p.2)

/-! ## Claim theorems -/

/-! Helper lemmas evaluating the ventilation while-loops. -/

/-- Loop step when the guard holds (plain macro). -/
theorem asus_vent_loop_pos {bound x : ℚ}
    (h : x + AsusMacro.Vent.HOLE_RADIUS < bound) :
    AsusMacro.Vent.loop bound x
      = AsusMacro.Vent.hole_at x
          :: AsusMacro.Vent.loop bound (x + AsusMacro.Vent.HOLE_SPACING) := by
  rw [AsusMacro.Vent.loop]
  simp [h]

/-- Loop exit when the guard fails (plain macro). -/
theorem asus_vent_loop_neg {bound x : ℚ}
    (h : ¬ x + AsusMacro.Vent.HOLE_RADIUS < bound) :
    AsusMacro.Vent.loop bound x = [] := by
  rw [AsusMacro.Vent.loop]
  simp [h]

/-- The left-region ventilation loop terminates with 8 holes at
x = 21, 29, …, 77 (plain macro). -/
theorem asus_vent_left_eq :
    AsusMacro.Vent.vent_left
      = [AsusMacro.Vent.hole_at 21, AsusMacro.Vent.hole_at 29,
         AsusMacro.Vent.hole_at 37, AsusMacro.Vent.hole_at 45,
         AsusMacro.Vent.hole_at 53, AsusMacro.Vent.hole_at 61,
         AsusMacro.Vent.hole_at 69, AsusMacro.Vent.hole_at 77] := by
  unfold AsusMacro.Vent.vent_left
  norm_num [asus_vent_loop_pos, asus_vent_loop_neg,
    AsusMacro.Vent.VENT_START_FROM_EDGE, AsusMacro.Vent.VENT_END_FROM_EDGE,
    AsusMacro.Vent.HOLE_RADIUS, AsusMacro.Vent.HOLE_SPACING,
    AsusMacro.SHELL_THICKNESS]

/-- The right-region ventilation loop terminates with 9 holes at
x = 221, 229, …, 285 (plain macro). -/
theorem asus_vent_right_eq :
    AsusMacro.Vent.vent_right
      = [AsusMacro.Vent.hole_at 221, AsusMacro.Vent.hole_at 229,
         AsusMacro.Vent.hole_at 237, AsusMacro.Vent.hole_at 245,
         AsusMacro.Vent.hole_at 253, AsusMacro.Vent.hole_at 261,
         AsusMacro.Vent.hole_at 269, AsusMacro.Vent.hole_at 277,
         AsusMacro.Vent.hole_at 285] := by
  unfold AsusMacro.Vent.vent_right
  norm_num [asus_vent_loop_pos, asus_vent_loop_neg,
    AsusMacro.Vent.VENT_START_FROM_EDGE, AsusMacro.Vent.VENT_END_FROM_EDGE,
    AsusMacro.Vent.HOLE_RADIUS, AsusMacro.Vent.HOLE_SPACING,
    AsusMacro.SHELL_THICKNESS, AsusMacro.outer_width, AsusMacro.cavity_width,
    AsusMacro.TABLET_WIDTH, AsusMacro.CLEARANCE]

/-- C10: for the fixed constants, both while-loops of
`create_ventilation_cutouts_top` terminate (the loop functions are total
and evaluate to explicit lists) and the function returns exactly 17
cylinders: 8 in the left region with axis x-positions `21 + 8k` for
`k = 0..7`, and 9 in the right region with axis x-positions `221 + 8k` for
`k = 0..8`; the right-region x-position set is not the reflection of the
left-region x-position set across the split plane x = 153.5 (the
reflection `x ↦ outer_width - x` of the left positions and the right
positions do not contain the same elements). -/
theorem ventilation_pattern :
    AsusMacro.Vent.vent_left
        = (List.range 8).map
            (fun k => AsusMacro.Vent.hole_at (21 + 8 * (k : ℚ))) ∧
    AsusMacro.Vent.vent_right
        = (List.range 9).map
            (fun k => AsusMacro.Vent.hole_at (221 + 8 * (k : ℚ))) ∧
    AsusMacro.create_ventilation_cutouts_top.length = 17 ∧
    ¬ ∀ q : ℚ,
        (q ∈ (AsusMacro.Vent.vent_left.map Cutout.posX).map
            (fun x => AsusMacro.outer_width - x) ↔
         q ∈ AsusMacro.Vent.vent_right.map Cutout.posX) := by
  refine ⟨?_, ?_, ?_, ?_⟩
  · rw [asus_vent_left_eq]
    norm_num [List.range_succ]
  · rw [asus_vent_right_eq]
    norm_num [List.range_succ]
  · rw [AsusMacro.create_ventilation_cutouts_top, asus_vent_left_eq,
      asus_vent_right_eq]
    rfl
  · intro hall
    have h230 := (hall 230).mp
    rw [asus_vent_left_eq, asus_vent_right_eq] at h230
    norm_num [AsusMacro.Vent.hole_at, makeCylinder, Cutout.posX,
      AsusMacro.outer_width, AsusMacro.cavity_width, AsusMacro.TABLET_WIDTH,
      AsusMacro.CLEARANCE, AsusMacro.SHELL_THICKNESS] at h230

/-- C2 counterexample: it is not the case that every cutout generated by
`create_all_cutouts_left`, `create_all_cutouts_right` and
`create_ventilation_cutouts_top` lies within the outer envelope bounding
box [0, 307] × [0, 211] × [0, 21]: the first left port slot starts at
x = −1 (and the right port slots reach x = 308, the kickstand notches
z = −0.5, the ventilation cylinders y = 211.5). -/
theorem cutouts_escape_envelope :
    ¬ ((∀ c ∈ AsusMacro.create_all_cutouts_left,
          c.bbox.insideOf AsusMacro.outer_box.bbox) ∧
       (∀ c ∈ AsusMacro.create_all_cutouts_right,
          c.bbox.insideOf AsusMacro.outer_box.bbox) ∧
       (∀ c ∈ AsusMacro.create_ventilation_cutouts_top,
          c.bbox.insideOf AsusMacro.outer_box.bbox)) := by
  rintro ⟨h1, -, -⟩
  have hm : (Cutout.box AsusMacro.CutLeft.ports_cutout)
      ∈ AsusMacro.create_all_cutouts_left := by
    simp [AsusMacro.create_all_cutouts_left]
  have hx := (h1 _ hm).1
  norm_num [Cutout.bbox, Box.bbox, BBox.insideOf, AsusMacro.outer_box,
    AsusMacro.CutLeft.ports_cutout, makeBox] at hx

/-- C2 corrected: every cutout generated by the three cutout functions lies
within the outer envelope bounding box expanded by 1 mm on every side,
[−1, 308] × [−1, 212] × [−1, 22]; the cutouts deliberately protrude
slightly past the envelope so the boolean subtractions cut cleanly. -/
theorem cutouts_within_expanded_envelope :
    (∀ c ∈ AsusMacro.create_all_cutouts_left,
        c.bbox.insideOf ⟨-1, 308, -1, 212, -1, 22⟩) ∧
    (∀ c ∈ AsusMacro.create_all_cutouts_right,
        c.bbox.insideOf ⟨-1, 308, -1, 212, -1, 22⟩) ∧
    (∀ c ∈ AsusMacro.create_ventilation_cutouts_top,
        c.bbox.insideOf ⟨-1, 308, -1, 212, -1, 22⟩) := by
  refine ⟨?_, ?_, ?_⟩
  · intro c hc
    fin_cases hc <;>
      norm_num [Cutout.bbox, Box.bbox, BBox.insideOf, makeBox,
        AsusMacro.CutLeft.ports_cutout, AsusMacro.CutLeft.ports_cutout2,
        AsusMacro.CutLeft.kickstand_cutout, AsusMacro.CutLeft.port_y_start,
        AsusMacro.CutLeft.port2_y_start, AsusMacro.CutLeft.kickstand_y_start,
        AsusMacro.CutLeft.port_cut_width, AsusMacro.CutLeft.port_cut_height,
        AsusMacro.CutLeft.PORT_CUT_LENGTH, AsusMacro.CutLeft.PORT2_CUT_LENGTH,
        AsusMacro.CutLeft.PORT_START_FROM_TOP,
        AsusMacro.CutLeft.PORT2_START_FROM_TOP,
        AsusMacro.CutLeft.KICKSTAND_START, AsusMacro.CutLeft.KICKSTAND_END,
        AsusMacro.CutLeft.KICKSTAND_LENGTH, AsusMacro.CutLeft.kickstand_width,
        AsusMacro.CutLeft.kickstand_x_start, AsusMacro.cavity_height,
        AsusMacro.TABLET_HEIGHT, AsusMacro.CLEARANCE,
        AsusMacro.SHELL_THICKNESS, AsusMacro.TABLET_SPACE]
  · intro c hc
    fin_cases hc <;>
      norm_num [Cutout.bbox, Box.bbox, BBox.insideOf, makeBox,
        AsusMacro.CutRight.ports_cutout, AsusMacro.CutRight.ports_cutout2,
        AsusMacro.CutRight.kickstand_cutout, AsusMacro.CutRight.port_y_start,
        AsusMacro.CutRight.port2_y_start,
        AsusMacro.CutRight.kickstand_y_start,
        AsusMacro.CutRight.port_cut_width, AsusMacro.CutRight.port_cut_height,
        AsusMacro.CutRight.PORT_CUT_LENGTH,
        AsusMacro.CutRight.PORT2_CUT_LENGTH,
        AsusMacro.CutRight.PORT_START_FROM_TOP,
        AsusMacro.CutRight.PORT2_START_FROM_TOP,
        AsusMacro.CutRight.KICKSTAND_START, AsusMacro.CutRight.KICKSTAND_END,
        AsusMacro.CutRight.KICKSTAND_LENGTH,
        AsusMacro.CutRight.kickstand_width, AsusMacro.cavity_height,
        AsusMacro.cavity_width, AsusMacro.outer_width, AsusMacro.TABLET_WIDTH,
        AsusMacro.TABLET_HEIGHT, AsusMacro.CLEARANCE,
        AsusMacro.SHELL_THICKNESS, AsusMacro.TABLET_SPACE]
  · intro c hc
    rw [AsusMacro.create_ventilation_cutouts_top, asus_vent_left_eq,
      asus_vent_right_eq] at hc
    fin_cases hc <;>
      norm_num [Cutout.bbox, Cyl.bbox, BBox.insideOf, makeCylinder,
        AsusMacro.Vent.hole_at, AsusMacro.Vent.wall_thickness,
        AsusMacro.Vent.hole_z, AsusMacro.Vent.HOLE_RADIUS,
        AsusMacro.outer_height, AsusMacro.cavity_height,
        AsusMacro.TABLET_HEIGHT, AsusMacro.CLEARANCE,
        AsusMacro.SHELL_THICKNESS, AsusMacro.TABLET_SPACE]

/-- C1: for the fixed parameter table, the outer box built by
`create_frame_shell` (in both macro variants it is
`Part.makeBox(outer_width, outer_height, total_height)`) has in-plane
dimensions `tablet_size + 2*clearance + 2*wall_thickness = 307 × 211` mm
and height `wall_thickness + tablet_space + lip_vertical = 21` mm. -/
theorem outer_box_dimensions :
    AsusMacro.outer_box.dx
        = AsusMacro.TABLET_WIDTH + 2 * AsusMacro.CLEARANCE
            + 2 * AsusMacro.SHELL_THICKNESS ∧
    AsusMacro.outer_box.dy
        = AsusMacro.TABLET_HEIGHT + 2 * AsusMacro.CLEARANCE
            + 2 * AsusMacro.SHELL_THICKNESS ∧
    AsusMacro.outer_box.dz
        = AsusMacro.SHELL_THICKNESS + AsusMacro.TABLET_SPACE
            + AsusMacro.LIP_VERTICAL ∧
    AsusMacro.outer_box.dx = 307 ∧
    AsusMacro.outer_box.dy = 211 ∧
    AsusMacro.outer_box.dz = 21 ∧
    AsusMacro.outer_box.x = 0 ∧ AsusMacro.outer_box.y = 0 ∧
    AsusMacro.outer_box.z = 0 ∧
    AtlogMacro.outer_box = AsusMacro.outer_box := by
  refine ⟨?_, ?_, ?_, ?_, ?_, ?_, ?_, ?_, ?_, rfl⟩ <;>
  norm_num [AsusMacro.outer_box, makeBox, AsusMacro.outer_width,
    AsusMacro.outer_height, AsusMacro.total_height, AsusMacro.cavity_width,
    AsusMacro.cavity_height, AsusMacro.TABLET_WIDTH, AsusMacro.TABLET_HEIGHT,
    AsusMacro.CLEARANCE, AsusMacro.SHELL_THICKNESS, AsusMacro.TABLET_SPACE,
    AsusMacro.LIP_VERTICAL]

/-- A guarded fillet pass whose kernel call fails leaves the shape
unchanged. -/
theorem tryFilletPass_none {mk : FilletFn} {s : Set Pt3} {r : ℚ}
    {edges : List Edge} (h : mk s r edges = none) :
    tryFilletPass mk s r edges = s := by
  unfold tryFilletPass
  split
  · rw [h]
  · rfl

/-- C3: for each of the three fillet passes of `create_frame_shell`,
independently of the other passes' outcomes, if that pass's kernel fillet
call fails (`mkFillet … = none` models the caught exception), the working
shape after that pass equals the shape before that pass's attempt — pass 1
reverts to the boolean blank, pass 2 to the pass-1 result, pass 3 to the
pass-2 result — while the remaining passes still execute on it; the
pipeline function is total, so no fillet failure propagates out of
`create_frame_shell`.  The three implications hold for every kernel, in
particular for runs where earlier passes succeed and only a later pass
fails. -/
theorem fillet_pass_error_recovery (kernelEdges : Set Pt3 → List Edge)
    (mkFillet : FilletFn) :
    (mkFillet AsusMacro.shell_shape_pre AsusMacro.INNER_CORNER_RADIUS
        (AsusMacro.select_inner_edges (kernelEdges AsusMacro.shell_shape_pre))
        = none →
      AsusMacro.frame_after_pass1 kernelEdges mkFillet
        = AsusMacro.shell_shape_pre) ∧
    (mkFillet (AsusMacro.frame_after_pass1 kernelEdges mkFillet)
        AsusMacro.OUTER_CORNER_RADIUS
        (AsusMacro.select_outer_vertical_edges
          (kernelEdges (AsusMacro.frame_after_pass1 kernelEdges mkFillet)))
        = none →
      AsusMacro.frame_after_pass2 kernelEdges mkFillet
        = AsusMacro.frame_after_pass1 kernelEdges mkFillet) ∧
    (mkFillet (AsusMacro.frame_after_pass2 kernelEdges mkFillet)
        AsusMacro.OUTER_EDGE_RADIUS
        (AsusMacro.select_outer_horizontal_edges
          (kernelEdges (AsusMacro.frame_after_pass2 kernelEdges mkFillet)))
        = none →
      AsusMacro.create_frame_shell kernelEdges mkFillet
        = AsusMacro.frame_after_pass2 kernelEdges mkFillet) :=
  ⟨fun h1 => tryFilletPass_none h1, fun h2 => tryFilletPass_none h2,
   fun h3 => tryFilletPass_none h3⟩

/-- Witness for C3: with an edge enumeration selecting the inner-corner
probe edge and a kernel whose fillet always fails, each per-pass
implication's hypothesis holds and each discharged conclusion follows by
applying the theorem. -/
theorem fillet_pass_error_recovery_witness :
    (noFillet AsusMacro.shell_shape_pre AsusMacro.INNER_CORNER_RADIUS
        (AsusMacro.select_inner_edges (probeEdges AsusMacro.shell_shape_pre))
        = none) ∧
    (noFillet (AsusMacro.frame_after_pass1 probeEdges noFillet)
        AsusMacro.OUTER_CORNER_RADIUS
        (AsusMacro.select_outer_vertical_edges
          (probeEdges (AsusMacro.frame_after_pass1 probeEdges noFillet)))
        = none) ∧
    (noFillet (AsusMacro.frame_after_pass2 probeEdges noFillet)
        AsusMacro.OUTER_EDGE_RADIUS
        (AsusMacro.select_outer_horizontal_edges
          (probeEdges (AsusMacro.frame_after_pass2 probeEdges noFillet)))
        = none) ∧
    (AsusMacro.frame_after_pass1 probeEdges noFillet
        = AsusMacro.shell_shape_pre ∧
     AsusMacro.frame_after_pass2 probeEdges noFillet
        = AsusMacro.frame_after_pass1 probeEdges noFillet ∧
     AsusMacro.create_frame_shell probeEdges noFillet
        = AsusMacro.frame_after_pass2 probeEdges noFillet) :=
  ⟨rfl, rfl, rfl,
   (fillet_pass_error_recovery probeEdges noFillet).1 rfl,
   (fillet_pass_error_recovery probeEdges noFillet).2.1 rfl,
   (fillet_pass_error_recovery probeEdges noFillet).2.2 rfl⟩

/-- C4 counterexample: with margins exceeding half the cavity height
(`solid_top_area = solid_bottom_area = 95` against the cavity height 205,
so `bottom_hole_y_size = -5`), the unvalidated `Part.makeBox` call of the
bottom cutout raises in the kernel model instead of being treated as a
no-op. -/
theorem bottom_hole_degenerate_raises :
    AsusMacro.bottom_hole_kernel AsusMacro.cavity_width AsusMacro.cavity_height
        10 95 95
      = Except.error "makeBox: dimensions must be positive" := by
  rw [AsusMacro.bottom_hole_kernel, makeBoxKernel, if_neg]
  rintro ⟨-, hw, -⟩
  norm_num [AsusMacro.bottom_hole_y_size, AsusMacro.cavity_height,
    AsusMacro.TABLET_HEIGHT, AsusMacro.CLEARANCE] at hw

/-- C4 corrected: for any parameter values for which the computed cutout
length `bottom_hole_y_size` is non-positive, the macro performs no
validation and the kernel box constructor rejects the degenerate dimension
(frame construction raises rather than treating the cutout as a no-op);
the degenerate cutout box itself denotes the empty solid (strictly
negative length), so subtracting it — had the kernel returned a zero-extent
solid — would have been a no-op. -/
theorem bottom_hole_degenerate_behavior
    (cavity_w cavity_h margin solid_top solid_bottom : ℚ)
    (h : AsusMacro.bottom_hole_y_size cavity_h margin solid_top solid_bottom
        ≤ 0) :
    AsusMacro.bottom_hole_kernel cavity_w cavity_h margin solid_top
        solid_bottom
      = Except.error "makeBox: dimensions must be positive" ∧
    (AsusMacro.bottom_hole_y_size cavity_h margin solid_top solid_bottom < 0 →
      (AsusMacro.bottom_hole_of cavity_w cavity_h margin solid_top
          solid_bottom).toSet = ∅) := by
  constructor
  · rw [AsusMacro.bottom_hole_kernel, makeBoxKernel, if_neg]
    rintro ⟨-, hw, -⟩
    linarith
  · intro hlt
    have hlt2 : ((AsusMacro.bottom_hole_y_size cavity_h margin solid_top
        solid_bottom : ℚ) : ℝ) < 0 := by exact_mod_cast hlt
    simp only [AsusMacro.bottom_hole_of, makeBox, Box.toSet]
    have h2 : Set.Icc
        ((AsusMacro.bottom_hole_y_start margin solid_bottom : ℚ) : ℝ)
        (((AsusMacro.bottom_hole_y_start margin solid_bottom : ℚ) : ℝ) +
          ((AsusMacro.bottom_hole_y_size cavity_h margin solid_top
              solid_bottom : ℚ) : ℝ))
        = (∅ : Set ℝ) := by
      apply Set.Icc_eq_empty
      intro hle
      linarith
    rw [h2, Set.empty_prod, Set.prod_empty]

/-- Witness for C4 corrected: the degenerate parameter combination
`cavity_h = 205`, `margin = 10`, `solid_top = solid_bottom = 95` gives
`bottom_hole_y_size = -5 ≤ 0` and the conclusion follows. -/
theorem bottom_hole_degenerate_behavior_witness :
    AsusMacro.bottom_hole_y_size 205 10 95 95 ≤ 0 ∧
    (AsusMacro.bottom_hole_kernel 225 205 10 95 95
        = Except.error "makeBox: dimensions must be positive" ∧
     (AsusMacro.bottom_hole_y_size 205 10 95 95 < 0 →
        (AsusMacro.bottom_hole_of 225 205 10 95 95).toSet = ∅)) :=
  ⟨by norm_num [AsusMacro.bottom_hole_y_size],
   bottom_hole_degenerate_behavior 225 205 10 95 95
     (by norm_num [AsusMacro.bottom_hole_y_size])⟩

/-- The point set of any box primitive is measurable. -/
theorem Box.measurableSet (b : Box) : MeasurableSet b.toSet :=
  measurableSet_Icc.prod (measurableSet_Icc.prod measurableSet_Icc)

/-- A plane x = c in three-space has Lebesgue measure zero. -/
theorem volume_plane (c : ℝ) :
    MeasureTheory.volume {p : Pt3 | p.1 = c} = 0 := by
  have h1 : {p : Pt3 | p.1 = c} = ({c} : Set ℝ) ×ˢ (Set.univ : Set (ℝ × ℝ)) := by
    ext p
    constructor
    · intro h
      exact ⟨h, trivial⟩
    · intro h
      exact h.1
  rw [h1, MeasureTheory.Measure.volume_eq_prod,
    MeasureTheory.Measure.prod_prod, Real.volume_singleton, zero_mul]

/-- A plane x = c in three-space has empty interior. -/
theorem interior_plane_empty (c : ℝ) :
    interior {p : Pt3 | p.1 = c} = ∅ := by
  rw [Set.eq_empty_iff_forall_not_mem]
  intro p hp
  obtain ⟨ε, hε, hball⟩ := Metric.isOpen_iff.mp isOpen_interior p hp
  have hmem : ((p.1 + ε / 2, p.2) : Pt3) ∈ Metric.ball p ε := by
    rw [Metric.mem_ball, Prod.dist_eq]
    have h2 : dist (p.1 + ε / 2) p.1 = ε / 2 := by
      rw [Real.dist_eq]
      rw [show p.1 + ε / 2 - p.1 = ε / 2 by ring]
      exact abs_of_pos (by linarith)
    rw [h2, dist_self]
    rw [max_eq_left (by linarith)]
    linarith
  have h3 : ((p.1 + ε / 2, p.2) : Pt3) ∈ {q : Pt3 | q.1 = c} :=
    interior_subset (hball hmem)
  have h4 : p ∈ {q : Pt3 | q.1 = c} := interior_subset hp
  simp only [Set.mem_setOf_eq] at h3 h4
  rw [h4] at h3
  linarith

/-- C5: the halves produced by `cut_frame_in_half` are the intersections of
the (filleted) frame with the two complementary half-envelope cutter boxes
split at x = `outer_width / 2`; for any measurable frame shape contained in
the outer envelope, the halves' interiors are disjoint and their volumes
sum to the volume of the frame. -/
theorem cut_frame_in_half_volume (S : Set Pt3) (hM : MeasurableSet S)
    (hE : S ⊆ AsusMacro.outer_box.toSet) :
    (AsusMacro.cut_frame_in_half S).1 = S ∩ AsusMacro.left_cutter.toSet ∧
    (AsusMacro.cut_frame_in_half S).2 = S ∩ AsusMacro.right_cutter.toSet ∧
    interior (AsusMacro.cut_frame_in_half S).1 ∩
        interior (AsusMacro.cut_frame_in_half S).2 = ∅ ∧
    MeasureTheory.volume (AsusMacro.cut_frame_in_half S).1 +
        MeasureTheory.volume (AsusMacro.cut_frame_in_half S).2
      = MeasureTheory.volume S := by
  set c : ℝ := ((AsusMacro.outer_width : ℚ) : ℝ) / 2 with hc
  set L := S ∩ AsusMacro.left_cutter.toSet with hLdef
  set R := S ∩ AsusMacro.right_cutter.toSet with hRdef
  have hLhalf : AsusMacro.left_cutter.toSet ⊆ {p : Pt3 | p.1 ≤ c} := by
    intro p hp
    simp only [Box.toSet, AsusMacro.left_cutter, makeBox, Set.mem_prod,
      Set.mem_Icc] at hp
    obtain ⟨⟨-, h2⟩, -⟩ := hp
    push_cast at h2
    simp only [Set.mem_setOf_eq, hc]
    linarith
  have hRhalf : AsusMacro.right_cutter.toSet ⊆ {p : Pt3 | c ≤ p.1} := by
    intro p hp
    simp only [Box.toSet, AsusMacro.right_cutter, makeBox, Set.mem_prod,
      Set.mem_Icc] at hp
    obtain ⟨⟨h1, -⟩, -⟩ := hp
    push_cast at h1
    simp only [Set.mem_setOf_eq, hc]
    linarith
  have hcover : AsusMacro.outer_box.toSet ⊆
      AsusMacro.left_cutter.toSet ∪ AsusMacro.right_cutter.toSet := by
    intro p hp
    simp only [Box.toSet, AsusMacro.outer_box, makeBox, Set.mem_prod,
      Set.mem_Icc] at hp
    obtain ⟨⟨hx1, hx2⟩, ⟨hy1, hy2⟩, ⟨hz1, hz2⟩⟩ := hp
    push_cast at hx1 hx2
    rcases le_total p.1 c with hcase | hcase
    · left
      simp only [Box.toSet, AsusMacro.left_cutter, makeBox, Set.mem_prod,
        Set.mem_Icc]
      refine ⟨⟨?_, ?_⟩, ⟨hy1, hy2⟩, ⟨hz1, hz2⟩⟩
      · push_cast
        linarith
      · push_cast
        rw [hc] at hcase
        linarith
    · right
      simp only [Box.toSet, AsusMacro.right_cutter, makeBox, Set.mem_prod,
        Set.mem_Icc]
      refine ⟨⟨?_, ?_⟩, ⟨hy1, hy2⟩, ⟨hz1, hz2⟩⟩
      · push_cast
        rw [hc] at hcase
        linarith
      · push_cast
        linarith
  have hIntL : interior L ⊆ interior {p : Pt3 | p.1 ≤ c} :=
    interior_mono (Set.inter_subset_right.trans hLhalf)
  have hIntR : interior R ⊆ interior {p : Pt3 | c ≤ p.1} :=
    interior_mono (Set.inter_subset_right.trans hRhalf)
  have hset : {p : Pt3 | p.1 ≤ c} ∩ {p : Pt3 | c ≤ p.1}
      = {p : Pt3 | p.1 = c} := by
    ext p
    constructor
    · rintro ⟨h1, h2⟩
      exact le_antisymm h1 h2
    · intro h
      exact ⟨le_of_eq h, ge_of_eq h⟩
  have hplane : interior {p : Pt3 | p.1 ≤ c} ∩ interior {p : Pt3 | c ≤ p.1}
      = interior {p : Pt3 | p.1 = c} := by
    rw [← interior_inter, hset]
  have hdisj : interior L ∩ interior R = ∅ := by
    rw [Set.eq_empty_iff_forall_not_mem]
    intro p hp
    have hmem : p ∈ interior {q : Pt3 | q.1 = c} := by
      rw [← hplane]
      exact ⟨hIntL hp.1, hIntR hp.2⟩
    rw [interior_plane_empty c] at hmem
    exact hmem
  have hLm : MeasurableSet L := hM.inter (Box.measurableSet _)
  have hRm : MeasurableSet R := hM.inter (Box.measurableSet _)
  have hunion : L ∪ R = S := by
    apply Set.eq_of_subset_of_subset
    · exact Set.union_subset Set.inter_subset_left Set.inter_subset_left
    · intro p hp
      rcases hcover (hE hp) with h | h
      · exact Or.inl ⟨hp, h⟩
      · exact Or.inr ⟨hp, h⟩
  have hinter0 : MeasureTheory.volume (L ∩ R) = 0 := by
    have hsub : L ∩ R ⊆ {p : Pt3 | p.1 = c} := by
      rintro p ⟨hp1, hp2⟩
      exact le_antisymm (hLhalf hp1.2) (hRhalf hp2.2)
    exact MeasureTheory.measure_mono_null hsub (volume_plane c)
  have hkey : MeasureTheory.volume (L ∪ R) + MeasureTheory.volume (L ∩ R)
      = MeasureTheory.volume L + MeasureTheory.volume R :=
    MeasureTheory.measure_union_add_inter L hRm
  rw [hunion, hinter0, add_zero] at hkey
  exact ⟨rfl, rfl, hdisj, hkey.symm⟩

/-- Witness for C5: the outer envelope itself is a measurable set contained
in the envelope, so the bisection conclusion holds for it. -/
theorem cut_frame_in_half_volume_witness :
    MeasurableSet AsusMacro.outer_box.toSet ∧
    AsusMacro.outer_box.toSet ⊆ AsusMacro.outer_box.toSet ∧
    ((AsusMacro.cut_frame_in_half AsusMacro.outer_box.toSet).1
        = AsusMacro.outer_box.toSet ∩ AsusMacro.left_cutter.toSet ∧
     (AsusMacro.cut_frame_in_half AsusMacro.outer_box.toSet).2
        = AsusMacro.outer_box.toSet ∩ AsusMacro.right_cutter.toSet ∧
     interior (AsusMacro.cut_frame_in_half AsusMacro.outer_box.toSet).1 ∩
        interior (AsusMacro.cut_frame_in_half AsusMacro.outer_box.toSet).2
        = ∅ ∧
     MeasureTheory.volume
        (AsusMacro.cut_frame_in_half AsusMacro.outer_box.toSet).1 +
        MeasureTheory.volume
          (AsusMacro.cut_frame_in_half AsusMacro.outer_box.toSet).2
       = MeasureTheory.volume AsusMacro.outer_box.toSet) :=
  ⟨Box.measurableSet _, subset_rfl,
   cut_frame_in_half_volume AsusMacro.outer_box.toSet (Box.measurableSet _)
     subset_rfl⟩

/-- C6 counterexample: the ventilation hole pattern cut from the left half
does not map onto the ventilation hole pattern of the right half under the
reflection across the split plane x = `outer_width / 2` (x ↦ `outer_width`
− x): the reflected left-region axis positions {230, …, 286} and the
right-region positions {221, …, 285} do not contain the same elements
(e.g. 230 is reflected from the left hole at x = 77 but is not a right
hole position). -/
theorem vent_pattern_not_mirrored :
    ¬ ∀ q : ℚ,
        (q ∈ (AsusMacro.Vent.vent_left.map Cutout.posX).map
            (fun x => AsusMacro.outer_width - x) ↔
         q ∈ AsusMacro.Vent.vent_right.map Cutout.posX) := by
  intro hall
  have h230 := (hall 230).mp
  rw [asus_vent_left_eq, asus_vent_right_eq] at h230
  norm_num [AsusMacro.Vent.hole_at, makeCylinder, Cutout.posX,
    AsusMacro.outer_width, AsusMacro.cavity_width, AsusMacro.TABLET_WIDTH,
    AsusMacro.CLEARANCE, AsusMacro.SHELL_THICKNESS] at h230

/-- C6 corrected: the two bisection cutter boxes are congruent under the
reflection across the split plane (the reflected left cutter is exactly
the right cutter), but the final halves are not congruent even ignoring
the connector-port and kickstand cutouts: the shared ventilation hole
pattern is not symmetric under the reflection, so the ventilation holes of
one half do not map onto those of the other. -/
theorem halves_reflection_congruence :
    reflectSplit '' AsusMacro.left_cutter.toSet
        = AsusMacro.right_cutter.toSet ∧
    ¬ ∀ q : ℚ,
        (q ∈ (AsusMacro.Vent.vent_left.map Cutout.posX).map
            (fun x => AsusMacro.outer_width - x) ↔
         q ∈ AsusMacro.Vent.vent_right.map Cutout.posX) := by
  constructor
  · ext p
    constructor
    · rintro ⟨q, hq, rfl⟩
      simp only [Box.toSet, AsusMacro.left_cutter, makeBox, Set.mem_prod,
        Set.mem_Icc] at hq
      obtain ⟨⟨h1, h2⟩, hyz⟩ := hq
      simp only [reflectSplit, Box.toSet, AsusMacro.right_cutter, makeBox,
        Set.mem_prod, Set.mem_Icc]
      refine ⟨⟨?_, ?_⟩, hyz⟩
      · push_cast at h1 h2 ⊢
        linarith
      · push_cast at h1 h2 ⊢
        linarith
    · intro hp
      simp only [Box.toSet, AsusMacro.right_cutter, makeBox, Set.mem_prod,
        Set.mem_Icc] at hp
      obtain ⟨⟨h1, h2⟩, hyz⟩ := hp
      refine ⟨reflectSplit p, ?_, ?_⟩
      · simp only [reflectSplit, Box.toSet, AsusMacro.left_cutter, makeBox,
          Set.mem_prod, Set.mem_Icc]
        refine ⟨⟨?_, ?_⟩, hyz⟩
        · push_cast at h1 h2 ⊢
          linarith
        · push_cast at h1 h2 ⊢
          linarith
      · simp only [reflectSplit]
        rw [sub_sub_cancel]
  · intro hall
    have h230 := (hall 230).mp
    rw [asus_vent_left_eq, asus_vent_right_eq] at h230
    norm_num [AsusMacro.Vent.hole_at, makeCylinder, Cutout.posX,
      AsusMacro.outer_width, AsusMacro.cavity_width, AsusMacro.TABLET_WIDTH,
      AsusMacro.CLEARANCE, AsusMacro.SHELL_THICKNESS] at h230

/-- C7: if the font/string yields no wires, or every character face
construction fails (both the Bullseye fill rule and the outer-contour
fallback), `create_text_engraving` returns no shape, the engraving cut of
`main` is skipped (the left half is exactly the pre-engraving shape), and
the generation of both halves still completes — the pipeline functions are
total, so an engraving failure never aborts shell generation. -/
theorem create_text_engraving_failure {W : Type} (wires : List (List W))
    (mkFaceBullseye fallbackFace : List W → Option AtlogMacro.Region2)
    (cx xmin ymin zmin : ℝ)
    (hfail : wires = [] ∨
      ∀ cw ∈ wires, mkFaceBullseye cw = none ∧ fallbackFace cw = none) :
    AtlogMacro.create_text_engraving wires mkFaceBullseye fallbackFace cx
        xmin ymin zmin = none ∧
    ∀ (kernelEdges : Set Pt3 → List Edge) (mkFillet : FilletFn),
      AtlogMacro.main_left_final kernelEdges mkFillet wires mkFaceBullseye
          fallbackFace cx xmin ymin zmin
        = AtlogMacro.left_final_before_engraving kernelEdges mkFillet := by
  have hnone : AtlogMacro.create_text_engraving wires mkFaceBullseye
      fallbackFace cx xmin ymin zmin = none := by
    rcases hfail with rfl | hall
    · rfl
    · by_cases hw : wires.isEmpty
      · simp [AtlogMacro.create_text_engraving, hw]
      · simp [AtlogMacro.create_text_engraving, hw]
        intro cw hcw hne
        obtain ⟨hmk, hfb⟩ := hall cw hcw
        rw [hmk]
        exact hfb
  refine ⟨hnone, ?_⟩
  intro kernelEdges mkFillet
  unfold AtlogMacro.main_left_final
  rw [hnone]
  rfl

/-- Witness for C7: a one-character wire list whose face constructions all
fail satisfies the failure hypothesis, and the conclusion follows. -/
theorem create_text_engraving_failure_witness :
    (sampleWires = [] ∨
      ∀ cw ∈ sampleWires, noFace cw = none ∧ noFace cw = none) ∧
    (AtlogMacro.create_text_engraving sampleWires noFace noFace 0 0 0 0
        = none ∧
     ∀ (kernelEdges : Set Pt3 → List Edge) (mkFillet : FilletFn),
       AtlogMacro.main_left_final kernelEdges mkFillet sampleWires noFace
           noFace 0 0 0 0
         = AtlogMacro.left_final_before_engraving kernelEdges mkFillet) :=
  ⟨Or.inr fun _ _ => ⟨rfl, rfl⟩,
   create_text_engraving_failure sampleWires noFace noFace 0 0 0 0
     (Or.inr fun _ _ => ⟨rfl, rfl⟩)⟩

/-- A left fold of unions stays inside any set containing the seed and
every list element. -/
theorem foldl_union_subset (T : Set Pt3) :
    ∀ (rest : List (Set Pt3)) (s : Set Pt3), s ⊆ T → (∀ t ∈ rest, t ⊆ T) →
      rest.foldl (· ∪ ·) s ⊆ T := by
  intro rest
  induction rest with
  | nil =>
      intro s hs _
      exact hs
  | cons a l ih =>
      intro s hs hl
      simp only [List.foldl_cons]
      exact ih (s ∪ a)
        (Set.union_subset hs (hl a (List.mem_cons_self a l)))
        (fun t ht => hl t (List.mem_cons_of_mem a ht))

/-- The fuse chain of a list of solids stays inside any set containing all
of them. -/
theorem fuseAll_subset (l : List (Set Pt3)) (T : Set Pt3)
    (h : ∀ s ∈ l, s ⊆ T) : AtlogMacro.fuseAll l ⊆ T := by
  cases l with
  | nil => exact Set.empty_subset T
  | cons s rest =>
      exact foldl_union_subset T rest s (h s (List.mem_cons_self s rest))
        (fun t ht => h t (List.mem_cons_of_mem s ht))

/-- C8: the text solid spans depth `TEXT_DEPTH + 0.2 = 1.2` mm and is
positioned starting at z = −0.1 (when the kernel reports the true minimum
z = 0 of the extruded characters), so it lies within z ∈ [−0.1, 1.1]; the
region it removes from any shell shape (contained in z ≥ 0) lies within
z ∈ [0, 1.1], strictly inside the 3 mm bottom wall (engraving depth ≤ wall
thickness) and never reaching the interior face at z = 3. -/
theorem text_engraving_contained (faces : List AtlogMacro.Region2)
    (cx xmin ymin zmin : ℝ) (S : Set Pt3) (hz : zmin = 0)
    (hS : S ⊆ upperHalfSpace) :
    AtlogMacro.TEXT_DEPTH + 0.2 = (1.2 : ℚ) ∧
    AtlogMacro.TEXT_DEPTH ≤ AtlogMacro.SHELL_THICKNESS ∧
    (∀ p ∈ AtlogMacro.text_solid faces cx xmin ymin zmin,
        -0.1 ≤ p.2.2 ∧ p.2.2 ≤ 1.1) ∧
    (∀ p ∈ S ∩ AtlogMacro.text_solid faces cx xmin ymin zmin,
        0 ≤ p.2.2 ∧ p.2.2 ≤ 1.1 ∧
          p.2.2 < ((AtlogMacro.SHELL_THICKNESS : ℚ) : ℝ)) := by
  have hzb : AtlogMacro.fuseAll (faces.map AtlogMacro.charSolid) ⊆
      {r : Pt3 | 0 ≤ r.2.2 ∧ r.2.2 ≤ 1.2} := by
    apply fuseAll_subset
    intro s hs
    rw [List.mem_map] at hs
    obtain ⟨A, -, rfl⟩ := hs
    rintro r ⟨-, h0, h1⟩
    have hd : ((AtlogMacro.TEXT_DEPTH : ℚ) : ℝ) + 0.2 = 1.2 := by
      norm_num [AtlogMacro.TEXT_DEPTH]
    exact ⟨h0, by linarith⟩
  have hmain : ∀ p ∈ AtlogMacro.text_solid faces cx xmin ymin zmin,
      -0.1 ≤ p.2.2 ∧ p.2.2 ≤ 1.1 := by
    intro p hp
    unfold AtlogMacro.text_solid AtlogMacro.translateBy AtlogMacro.mirrorX
      at hp
    obtain ⟨q, hq, rfl⟩ := hp
    obtain ⟨r, hr, rfl⟩ := hq
    obtain ⟨h0, h1⟩ := hzb hr
    simp only [hz]
    constructor
    · linarith
    · linarith
  refine ⟨by norm_num [AtlogMacro.TEXT_DEPTH], ?_, hmain, ?_⟩
  · norm_num [AtlogMacro.TEXT_DEPTH, AtlogMacro.SHELL_THICKNESS]
  · rintro p ⟨hpS, hpT⟩
    obtain ⟨hlo, hhi⟩ := hmain p hpT
    have h0 : 0 ≤ p.2.2 := hS hpS
    have h3 : ((AtlogMacro.SHELL_THICKNESS : ℚ) : ℝ) = 3 := by
      norm_num [AtlogMacro.SHELL_THICKNESS]
    exact ⟨h0, hhi, by linarith⟩

/-- Witness for C8: a single full-plane character face, bounding-box
minimum z = 0 and the upper half-space as the shell region satisfy the
hypotheses, and the containment conclusion follows. -/
theorem text_engraving_contained_witness :
    (0 : ℝ) = 0 ∧ upperHalfSpace ⊆ upperHalfSpace ∧
    (AtlogMacro.TEXT_DEPTH + 0.2 = (1.2 : ℚ) ∧
     AtlogMacro.TEXT_DEPTH ≤ AtlogMacro.SHELL_THICKNESS ∧
     (∀ p ∈ AtlogMacro.text_solid sampleFaces 0 0 0 0,
         -0.1 ≤ p.2.2 ∧ p.2.2 ≤ 1.1) ∧
     (∀ p ∈ upperHalfSpace ∩ AtlogMacro.text_solid sampleFaces 0 0 0 0,
         0 ≤ p.2.2 ∧ p.2.2 ≤ 1.1 ∧
           p.2.2 < ((AtlogMacro.SHELL_THICKNESS : ℚ) : ℝ))) :=
  ⟨rfl, subset_rfl,
   text_engraving_contained sampleFaces 0 0 0 0 upperHalfSpace rfl
     subset_rfl⟩

/-- Loop step when the guard holds (atlog variant). -/
theorem atlog_vent_loop_pos {bound x : ℚ}
    (h : x + AtlogMacro.Vent.HOLE_RADIUS < bound) :
    AtlogMacro.Vent.loop bound x
      = AtlogMacro.Vent.hole_at x
          :: AtlogMacro.Vent.loop bound (x + AtlogMacro.Vent.HOLE_SPACING) := by
  rw [AtlogMacro.Vent.loop]
  simp [h]

/-- Loop exit when the guard fails (atlog variant). -/
theorem atlog_vent_loop_neg {bound x : ℚ}
    (h : ¬ x + AtlogMacro.Vent.HOLE_RADIUS < bound) :
    AtlogMacro.Vent.loop bound x = [] := by
  rw [AtlogMacro.Vent.loop]
  simp [h]

/-- The left-region ventilation loop terminates with 8 holes at
x = 21, 29, …, 77 (atlog variant). -/
theorem atlog_vent_left_eq :
    AtlogMacro.Vent.vent_left
      = [AtlogMacro.Vent.hole_at 21, AtlogMacro.Vent.hole_at 29,
         AtlogMacro.Vent.hole_at 37, AtlogMacro.Vent.hole_at 45,
         AtlogMacro.Vent.hole_at 53, AtlogMacro.Vent.hole_at 61,
         AtlogMacro.Vent.hole_at 69, AtlogMacro.Vent.hole_at 77] := by
  unfold AtlogMacro.Vent.vent_left
  norm_num [atlog_vent_loop_pos, atlog_vent_loop_neg,
    AtlogMacro.Vent.VENT_START_FROM_EDGE, AtlogMacro.Vent.VENT_END_FROM_EDGE,
    AtlogMacro.Vent.HOLE_RADIUS, AtlogMacro.Vent.HOLE_SPACING,
    AtlogMacro.SHELL_THICKNESS]

/-- The right-region ventilation loop terminates with 9 holes at
x = 221, 229, …, 285 (atlog variant). -/
theorem atlog_vent_right_eq :
    AtlogMacro.Vent.vent_right
      = [AtlogMacro.Vent.hole_at 221, AtlogMacro.Vent.hole_at 229,
         AtlogMacro.Vent.hole_at 237, AtlogMacro.Vent.hole_at 245,
         AtlogMacro.Vent.hole_at 253, AtlogMacro.Vent.hole_at 261,
         AtlogMacro.Vent.hole_at 269, AtlogMacro.Vent.hole_at 277,
         AtlogMacro.Vent.hole_at 285] := by
  unfold AtlogMacro.Vent.vent_right
  norm_num [atlog_vent_loop_pos, atlog_vent_loop_neg,
    AtlogMacro.Vent.VENT_START_FROM_EDGE, AtlogMacro.Vent.VENT_END_FROM_EDGE,
    AtlogMacro.Vent.HOLE_RADIUS, AtlogMacro.Vent.HOLE_SPACING,
    AtlogMacro.SHELL_THICKNESS, AtlogMacro.outer_width,
    AtlogMacro.cavity_width, AtlogMacro.TABLET_WIDTH, AtlogMacro.CLEARANCE]

/-- The two variants compute the same ventilation cutout list. -/
theorem vent_lists_agree :
    AtlogMacro.create_ventilation_cutouts_top
      = AsusMacro.create_ventilation_cutouts_top := by
  unfold AtlogMacro.create_ventilation_cutouts_top
    AsusMacro.create_ventilation_cutouts_top
  rw [atlog_vent_left_eq, atlog_vent_right_eq, asus_vent_left_eq,
    asus_vent_right_eq]
  rfl

/-- C9: the plain and text-engraved variants run the same pipeline on
identical parameters.  Every stage before text engraving computes the same
shape in both variants (boolean frame blank, filleted frame, port and
kickstand cutout lists, ventilation list, bisected halves); the final
right-half shape of the text-engraved variant equals the plain variant's
final right-half shape; and the text-engraved variant's final left-half
shape is exactly the plain variant's final left-half shape with the text
solid additionally subtracted when engraving succeeds (and equal to it
when engraving fails). -/
theorem variant_pipelines_agree {W : Type} (kernelEdges : Set Pt3 → List Edge)
    (mkFillet : FilletFn) (wires : List (List W))
    (mkFaceBullseye fallbackFace : List W → Option AtlogMacro.Region2)
    (cx xmin ymin zmin : ℝ) :
    AtlogMacro.shell_shape_pre = AsusMacro.shell_shape_pre ∧
    AtlogMacro.create_frame_shell kernelEdges mkFillet
        = AsusMacro.create_frame_shell kernelEdges mkFillet ∧
    AtlogMacro.create_all_cutouts_left = AsusMacro.create_all_cutouts_left ∧
    AtlogMacro.create_all_cutouts_right
        = AsusMacro.create_all_cutouts_right ∧
    AtlogMacro.create_ventilation_cutouts_top
        = AsusMacro.create_ventilation_cutouts_top ∧
    AtlogMacro.cut_frame_in_half
        (AtlogMacro.create_frame_shell kernelEdges mkFillet)
      = AsusMacro.cut_frame_in_half
          (AsusMacro.create_frame_shell kernelEdges mkFillet) ∧
    AtlogMacro.main_right_final kernelEdges mkFillet
        = AsusMacro.main_right_final kernelEdges mkFillet ∧
    AtlogMacro.left_final_before_engraving kernelEdges mkFillet
        = AsusMacro.main_left_final kernelEdges mkFillet ∧
    AtlogMacro.main_left_final kernelEdges mkFillet wires mkFaceBullseye
        fallbackFace cx xmin ymin zmin
      = AtlogMacro.engrave_step
          (AtlogMacro.create_text_engraving wires mkFaceBullseye fallbackFace
            cx xmin ymin zmin)
          (AsusMacro.main_left_final kernelEdges mkFillet) := by
  have hvent : AtlogMacro.create_ventilation_cutouts_top
      = AsusMacro.create_ventilation_cutouts_top := by
    unfold AtlogMacro.create_ventilation_cutouts_top
      AsusMacro.create_ventilation_cutouts_top
    rw [atlog_vent_left_eq, atlog_vent_right_eq, asus_vent_left_eq,
      asus_vent_right_eq]
    rfl
  have hright : AtlogMacro.main_right_final kernelEdges mkFillet
      = AsusMacro.main_right_final kernelEdges mkFillet := by
    unfold AtlogMacro.main_right_final AsusMacro.main_right_final
    rw [hvent]
    rfl
  have hleft : AtlogMacro.left_final_before_engraving kernelEdges mkFillet
      = AsusMacro.main_left_final kernelEdges mkFillet := by
    unfold AtlogMacro.left_final_before_engraving AsusMacro.main_left_final
    rw [hvent]
    rfl
  refine ⟨rfl, rfl, rfl, rfl, hvent, rfl, hright, hleft, ?_⟩
  unfold AtlogMacro.main_left_final
  rw [hleft]
